/-
  Verification of specification claims for the git-cache repository
  (a local caching layer for remote Git repositories, written in C).

  Each C function relevant to a claim is shallowly embedded as an executable
  Lean definition.  External effects (filesystem probes, child-process exit
  codes, on-disk metadata) are passed in as explicit parameters, so that every
  definition is a pure function of the source code logic plus its environment.
-/
import Mathlib

namespace GitCache

/-! ## Error codes (src/git-cache.h, src/cache_metadata.h, src/checkout_repair.h) -/

def CACHE_SUCCESS : Int := 0
def CACHE_ERROR_ARGS : Int := -1
def CACHE_ERROR_FILESYSTEM : Int := -4
def CACHE_ERROR_GIT : Int := -5
def CACHE_ERROR_MEMORY : Int := -7

def METADATA_SUCCESS : Int := 0
def METADATA_ERROR_NOT_FOUND : Int := -1
def METADATA_ERROR_INVALID : Int := -2
def METADATA_ERROR_IO : Int := -3
def METADATA_ERROR_CORRUPT : Int := -5

def CHECKOUT_REPAIR_SUCCESS : Int := 0
def CHECKOUT_REPAIR_FAILED : Int := -1

/-! ## URL parsing (src/github_api.c, github_parse_repo_url, lines 519-659)

The C code walks a `const char *` with strncmp / strchr; we embed it over
`List Char`.  Helper functions mirror the individual pointer manipulations. -/

/-- Index of the first occurrence of a character, mirroring strchr. -/
def charIndex (c : Char) : List Char → Option Nat
  | [] => none
  | x :: xs => if x = c then some 0 else (charIndex c xs).map (· + 1)

/-- Drop a literal leading segment if present, mirroring a strncmp test
followed by a pointer advance. -/
def dropPfx? (p s : List Char) : Option (List Char) :=
  if p.IsPrefix s then some (s.drop p.length) else none

instance (p s : List Char) : Decidable (p.IsPrefix s) :=
  decidable_of_iff (p.isPrefixOf s = true) (by simp)

/-- Skip a leading user@ part when the at sign occurs before the first slash,
as the C code does inside the ssh:// and git+ssh:// branches. -/
def skipUserAt (s : List Char) : List Char :=
  match charIndex '@' s, charIndex '/' s with
  | some a, some sl => if a < sl then s.drop (a + 1) else s
  | _, _ => s

/-- Outcome of the protocol-skipping first phase of github_parse_repo_url. -/
inductive ProtoStep where
  | host (rest : List Char)
  | scp (rest : List Char)
  | invalid
  deriving DecidableEq, Repr

/-- Protocol skipping of github_parse_repo_url: the chain of strncmp tests on
the scheme, the scp-style git@ branch that jumps straight to owner/repo
parsing after the first colon, and the rejection of file:// URLs. -/
def skipProtocol (url : List Char) : ProtoStep :=
  if let some r := dropPfx? ("https://".toList) url then .host r
  else if let some r := dropPfx? ("http://".toList) url then .host r
  else if let some r := dropPfx? ("git://".toList) url then .host r
  else if let some r := dropPfx? ("git+https://".toList) url then .host r
  else if let some r := dropPfx? ("git+http://".toList) url then .host r
  else if let some r := dropPfx? ("git+ssh://".toList) url then .host (skipUserAt r)
  else if let some r := dropPfx? ("ssh://".toList) url then .host (skipUserAt r)
  else if ("git@".toList).IsPrefix url then
    match charIndex ':' url with
    | none => .invalid
    | some i => .scp (url.drop (i + 1))
  else if ("file://".toList).IsPrefix url then .invalid
  else .host url

/-- Host matching of github_parse_repo_url: the three strncmp branches on
github.com followed by slash, colon, or a bare prefix. -/
def stripHost (s : List Char) : Option (List Char) :=
  if let some r := dropPfx? ("github.com/".toList) s then some r
  else if let some r := dropPfx? ("github.com:".toList) s then some r
  else if let some r := dropPfx? ("github.com".toList) s then
    let r1 := if r.head? = some '/' then r.drop 1 else r
    let r2 := if r1.head? = some ':' then r1.drop 1 else r1
    some r2
  else none

/-- Remove trailing slashes, mirroring the repo_end walk-back loops. -/
def stripTrailingSlashes (l : List Char) : List Char :=
  (l.reverse.dropWhile (fun c => c = '/')).reverse

/-- Remove a trailing .git when the name is strictly longer than four
characters, mirroring the repo_end > repo_start + 4 guard. -/
def stripDotGit (l : List Char) : List Char :=
  if 4 < l.length ∧ l.drop (l.length - 4) = (".git".toList) then
    l.take (l.length - 4)
  else l

/-- Owner and name extraction after the parse_owner_repo label: split at the
first slash, reject an empty owner, strip trailing slashes, a .git suffix,
and trailing slashes again, and reject an empty name. -/
def parseOwnerRepo (s : List Char) : Option (List Char × List Char) :=
  match charIndex '/' s with
  | none => none
  | some i =>
    if i = 0 then none
    else
      let owner := s.take i
      let rest := s.drop (i + 1)
      let r3 := stripTrailingSlashes (stripDotGit (stripTrailingSlashes rest))
      if r3.length = 0 then none else some (owner, r3)

/-- Shallow embedding of github_parse_repo_url (src/github_api.c:519).
Returns the extracted owner and repository name, or none for
GITHUB_ERROR_INVALID. -/
def github_parse_repo_url (url : List Char) : Option (List Char × List Char) :=
  match skipProtocol url with
  | .invalid => none
  | .scp rest => parseOwnerRepo rest
  | .host rest =>
    match stripHost rest with
    | none => none
    | some r => parseOwnerRepo r

/-- String-level wrapper for github_parse_repo_url. -/
def parseRepoUrl (url : String) : Option (String × String) :=
  (github_parse_repo_url url.toList).map (fun p => (String.mk p.1, String.mk p.2))

/-! ## Repository info and path setup (src/git-cache.c) -/

/-- Repository hosting type (enum repo_type in git-cache.h). -/
inductive RepoType where
  | github
  | unknown
  deriving DecidableEq, Repr

/-- The fields of struct repo_info touched by URL parsing and path setup.
Heap strings that may stay NULL are modelled as Option String. -/
structure RepoInfo where
  original_url : Option String
  type : RepoType
  owner : Option String
  name : Option String
  cache_path : Option String
  checkout_path : Option String
  modifiable_path : Option String
  deriving DecidableEq, Repr

/-- A freshly zeroed struct repo_info, as produced by memset in the callers. -/
def repoInfoZero : RepoInfo :=
  { original_url := none, type := .unknown, owner := none, name := none,
    cache_path := none, checkout_path := none, modifiable_path := none }

/-- Shallow embedding of repo_info_parse_url (src/git-cache.c:612).  The
function stores the original URL, then delegates to github_parse_repo_url;
on success it fills only type, owner and name (never any path field) and
returns CACHE_SUCCESS, otherwise it marks the type unknown and returns
CACHE_ERROR_ARGS. -/
def repo_info_parse_url (url : String) : Int × RepoInfo :=
  match parseRepoUrl url with
  | some (o, n) =>
    (CACHE_SUCCESS,
     { repoInfoZero with
        original_url := some url, type := .github,
        owner := some o, name := some n })
  | none =>
    (CACHE_ERROR_ARGS, { repoInfoZero with original_url := some url, type := .unknown })

/-- Shallow embedding of repo_info_setup_paths (src/git-cache.c:644): the
three snprintf calls building cache, checkout and modifiable paths.  The
host segment written by the source is the literal github.com. -/
def repo_info_setup_paths (cache_root checkout_root owner name : String) :
    String × String × String :=
  (cache_root ++ "/github.com/" ++ owner ++ "/" ++ name,
   checkout_root ++ "/" ++ owner ++ "/" ++ name,
   checkout_root ++ "/mithro/" ++ owner ++ "-" ++ name)

/-! ## Metadata lookup by URL (src/cache_metadata.c) -/

/-- Shallow embedding of cache_metadata_load (src/cache_metadata.c:266).
The first line of the C function rejects a NULL cache_path with
METADATA_ERROR_INVALID before any filesystem access; the behaviour on a
non-NULL path (existence check, JSON parse, field defaults) is abstracted
by the disk parameter. -/
def cache_metadata_load (disk : String → Int) : Option String → Int
  | none => METADATA_ERROR_INVALID
  | some p => disk p

/-- Shallow embedding of cache_metadata_get_by_url (src/cache_metadata.c:541):
memset a struct repo_info to zero, parse the URL, and load metadata from
the cache_path field of that struct. -/
def cache_metadata_get_by_url (disk : String → Int) (url : String) : Int :=
  let pr := repo_info_parse_url url
  if pr.1 ≠ CACHE_SUCCESS then METADATA_ERROR_INVALID
  else cache_metadata_load disk pr.2.cache_path

/-! ## Lock manager (src/git-cache.c, lines 1195-1338) -/

/-- Stale threshold LOCK_TIMEOUT (src/git-cache.c:31). -/
def LOCK_TIMEOUT : Nat := 300

/-- Shallow embedding of is_lock_stale (src/git-cache.c:1212) for an existing
lock file whose age in seconds is now minus its mtime. -/
def is_lock_stale (age : Nat) : Bool :=
  decide (LOCK_TIMEOUT < age)

/-- What one iteration of the acquire_lock collision branch decides to do. -/
inductive LockAction where
  | reclaim
  | wait
  deriving DecidableEq, Repr

/-- Shallow embedding of the collision branch of acquire_lock
(src/git-cache.c:1297-1321): when O_CREAT with O_EXCL fails with EEXIST, the
lock is deleted and acquisition retried only when is_lock_stale holds AND
the recorded holder pid is invalid or its process is not running; in every
other case the caller sleeps and retries.  The pid read failure of
read_lock_pid is the value -1, covered by holder_pid less or equal zero. -/
def acquire_collision (age : Nat) (holder_pid : Int) (alive : Int → Bool) :
    LockAction :=
  if is_lock_stale age then
    if holder_pid ≤ 0 ∨ alive holder_pid = false then .reclaim else .wait
  else .wait

/-! ## Git invoker with retry (src/git-cache.c, retry_network_operation_with_progress, lines 861-910) -/

/-- Delay update after a failed attempt: delay doubles and is capped at 16
seconds (src/git-cache.c:903-904). -/
def capDelay (d : Nat) : Nat :=
  if 16 < d * 2 then 16 else d * 2

/-- Shallow embedding of the while loop of
retry_network_operation_with_progress, structurally recursing on the number
of remaining attempts.  The exitCode parameter gives the exit status of the
child process spawned on each attempt.  Returns the C return value together
with the list of sleep durations performed, in order. -/
def retryLoop (exitCode : Nat → Nat) : Nat → Nat → Nat → Int × List Nat
  | 0, _, _ => (-1, [])
  | remaining + 1, attempt, delay =>
    let ec := exitCode attempt
    if ec = 0 then (0, [])
    else if ec = 128 ∨ ec = 1 then ((ec : Int), [])
    else if remaining = 0 then (-1, [])
    else
      let r := retryLoop exitCode remaining (attempt + 1) (capDelay delay)
      (r.1, delay :: r.2)

/-- Entry point: attempt counter starts at zero and delay at one second. -/
def retry_network_operation (exitCode : Nat → Nat) (max_retries : Nat) :
    Int × List Nat :=
  retryLoop exitCode max_retries 0 1

/-- The delay sequence generated from an initial delay by repeated capped
doubling. -/
def delaySeq (d : Nat) : Nat → List Nat
  | 0 => []
  | n + 1 => d :: delaySeq (capDelay d) n

theorem capDelay_eq_min (d : Nat) : capDelay d = min (2 * d) 16 := by
  unfold capDelay
  split_ifs with h <;> omega

theorem retryLoop_allbad (exitCode : Nat → Nat) :
    ∀ (rem attempt delay : Nat),
      (∀ i, attempt ≤ i → i < attempt + rem →
        exitCode i ≠ 0 ∧ exitCode i ≠ 1 ∧ exitCode i ≠ 128) →
      retryLoop exitCode rem attempt delay = (-1, delaySeq delay (rem - 1)) := by
  intro rem
  induction rem with
  | zero => intro attempt delay _; simp [retryLoop, delaySeq]
  | succ m ih =>
    intro attempt delay hbad
    have hb := hbad attempt (le_refl _) (by omega)
    match m with
    | 0 =>
      simp [retryLoop, hb.1, hb.2.1, hb.2.2, delaySeq]
    | k + 1 =>
      have ihm := ih (attempt + 1) (capDelay delay)
        (fun i h1 h2 => hbad i (by omega) (by omega))
      rw [retryLoop]
      simp [hb.1, hb.2.1, hb.2.2, ihm, delaySeq]

theorem delaySeq_get?_succ :
    ∀ (m d i : Nat), i + 1 < m →
      (delaySeq d m).get? (i + 1) =
        ((delaySeq d m).get? i).map (fun x => min (2 * x) 16) := by
  intro m
  induction m with
  | zero => intro d i h; omega
  | succ k ihm =>
    intro d i h
    match i with
    | 0 =>
      match k, h with
      | j + 1, _ =>
        simp [delaySeq, capDelay_eq_min]
    | i' + 1 =>
      have := ihm (capDelay d) i' (by omega)
      simpa [delaySeq] using this

/-! ## Strategy auto-detector (src/strategy_detection.c, get_optimal_strategy, lines 322-416) -/

/-- Clone strategies (enum clone_strategy in git-cache.h). -/
inductive CloneStrategy where
  | full
  | shallow
  | treeless
  | blobless
  deriving DecidableEq, Repr

/-- The fields of struct repo_analysis read by get_optimal_strategy.
estimated_size is a uint64_t byte count; the counters are C ints. -/
structure RepoAnalysis where
  estimated_size : Nat
  commit_count : Int
  has_large_files : Bool
  is_monorepo : Bool
  activity_level : Int
  deriving DecidableEq, Repr

/-- The fields of struct strategy_config read by get_optimal_strategy. -/
structure StrategyConfig where
  prefer_speed : Bool
  size_threshold_mb : Nat
  depth_threshold : Int
  deriving DecidableEq, Repr

/-- Recommendation produced by get_optimal_strategy. -/
structure StrategyRecommendation where
  strategy : CloneStrategy
  confidence : Int
  reasoning : String
  fallback : CloneStrategy
  deriving DecidableEq, Repr

/-- Shallow embedding of get_optimal_strategy (src/strategy_detection.c:322).
The branch order of the source is kept exactly: small repository, then the
size/commit threshold branch, then high activity, then monorepo, then low
activity, then the size-based default.  Threshold constants are inlined
from the defines at the top of the file (SMALL 10, LARGE 500, MEDIUM 100,
HIGH_ACTIVITY 50, LOW_ACTIVITY 5). -/
def get_optimal_strategy (a : RepoAnalysis) (c : StrategyConfig) :
    StrategyRecommendation :=
  let size_mb := a.estimated_size / (1024 * 1024)
  if size_mb < 10 ∧ a.commit_count < 100 then
    ⟨.full, 95, "Small repository - full clone is optimal", .shallow⟩
  else if c.size_threshold_mb < size_mb ∨ c.depth_threshold < a.commit_count then
    if c.prefer_speed then
      if a.has_large_files = true ∨ a.is_monorepo = true then
        ⟨.blobless, 85, "Large repository with binary files - blobless clone recommended", .treeless⟩
      else if 500 < size_mb then
        ⟨.treeless, 80, "Large repository - treeless clone for faster download", .blobless⟩
      else
        ⟨.shallow, 75, "Medium repository - shallow clone for speed", .treeless⟩
    else
      ⟨.full, 70, "Full history preferred despite size", .treeless⟩
  else if 50 < a.activity_level ∧ c.prefer_speed = true then
    ⟨.shallow, 70, "High activity repository - shallow clone for quick updates", .full⟩
  else if a.is_monorepo = true then
    ⟨.blobless, 90, "Monorepo detected - blobless clone recommended", .treeless⟩
  else if a.activity_level < 5 then
    ⟨.full, 80, "Low activity repository - full clone appropriate", .shallow⟩
  else if 100 / 2 < size_mb then
    ⟨.treeless, 60, "Medium-sized repository - treeless clone balances speed and functionality", .shallow⟩
  else
    ⟨.full, 65, "Standard repository - full clone recommended", .shallow⟩

/-! ## Repository validator (src/git-cache.c, validate_git_repository, lines 981-1051,
and validate_git_repository_integrity, lines 913-979) -/

/-- Filesystem and git-command probe results for one repository path.  For a
checkout the git directory is the .git subdirectory; for a bare mirror it is
the path itself.  The alternates field records the significant lines of
.git/objects/info/alternates when that file exists; validate_git_repository
never reads it, so carrying it here makes that observable. -/
structure RepoProbe where
  git_dir_exists : Bool
  objects_exists : Bool
  refs_exists : Bool
  head_exists : Bool
  rev_parse_git_dir_exit : Nat
  show_ref_exit : Nat
  rev_parse_head_exit : Nat
  alternates : Option (List String)
  deriving DecidableEq, Repr

/-- Shallow embedding of validate_git_repository composed with
validate_git_repository_integrity: sentinel checks on the git directory,
objects, refs and HEAD, then rev-parse of the git dir (exit 0 required),
then show-ref (exit at most 1) for a bare repo or rev-parse HEAD (exit at
most 128) for a working tree. -/
def validate_git_repository (p : RepoProbe) (is_bare : Bool) : Bool :=
  if p.git_dir_exists = false then false
  else if (p.objects_exists && p.refs_exists && p.head_exists) = false then false
  else if p.rev_parse_git_dir_exit ≠ 0 then false
  else if is_bare then
    if 1 < p.show_ref_exit then false else true
  else
    if 128 < p.rev_parse_head_exit then false else true

/-! ## Repository lifecycle engine (src/git-cache.c, create_cache_repository,
lines 1361-1699, and create_reference_checkout, lines 1802-2092) -/

/-- Classification of the destination directory at inspect time, with
abstract directory contents. -/
inductive DirState where
  | absent
  | validRepo (c : Nat)
  | corruptRepo (c : Nat)
  | nonGitDir (c : Nat)
  deriving DecidableEq, Repr

/-- Final state of one lifecycle invocation: C return value, state of the
canonical path, and whether the temporary sibling and the backup directory
still exist afterwards. -/
structure LifecycleOutcome where
  ret : Int
  canonical : DirState
  tmp_exists : Bool
  backup_exists : Bool
  deriving DecidableEq, Repr

/-- Restoring the canonical path from the prepare-phase backup: a corrupt
repository that was moved aside comes back; when no backup was taken the
path is left absent. -/
def restoreBackup : Option Nat → DirState
  | some c => .corruptRepo c
  | none => .absent

/-- Shallow embedding of create_cache_repository (src/git-cache.c:1361).
The fast path for a valid repository runs a fetch and returns success even
when the fetch fails (the cache stays usable).  Otherwise: a corrupt
repository is moved to a backup, a non-git directory is removed, the clone
into the temporary sibling runs under the network retry wrapper
(clone_result none means it ultimately failed), the temporary clone is
validated, and the result is committed by rename.  On clone or validation
failure the temporary directory is removed and any backup restored, and the
caller receives CACHE_ERROR_GIT.  Filesystem mv operations are assumed to
succeed. -/
def create_cache_repository (init : DirState) (clone_result : Option Nat)
    (validate_clone : Nat → Bool) : LifecycleOutcome :=
  match init with
  | .validRepo c => ⟨CACHE_SUCCESS, .validRepo c, false, false⟩
  | _ =>
    let backup : Option Nat := match init with | .corruptRepo c => some c | _ => none
    match clone_result with
    | none => ⟨CACHE_ERROR_GIT, restoreBackup backup, false, false⟩
    | some c =>
      if validate_clone c then ⟨CACHE_SUCCESS, .validRepo c, false, false⟩
      else ⟨CACHE_ERROR_GIT, restoreBackup backup, false, false⟩

/-- Shallow embedding of create_reference_checkout (src/git-cache.c:1802).
First the cache repository is validated (failure surfaces CACHE_ERROR_GIT
before anything is touched).  A valid existing checkout takes the fast pull
path and returns success even when the pull fails.  Otherwise the corrupt
checkout is backed up or the non-git directory removed, the reference clone
runs once (no retry wrapper), and the result is validated by the compound
check of line 2028: failure only when the .git subdirectory is missing AND
validate_git_repository fails.  On clone or validation failure the
temporary directory is removed, any backup restored, and the caller
receives CACHE_ERROR_GIT. -/
def create_reference_checkout (cache_valid : Bool) (init : DirState)
    (clone_result : Option Nat) (git_subdir_exists validate_clone : Nat → Bool) :
    LifecycleOutcome :=
  if cache_valid = false then ⟨CACHE_ERROR_GIT, init, false, false⟩
  else match init with
  | .validRepo c => ⟨CACHE_SUCCESS, .validRepo c, false, false⟩
  | _ =>
    let backup : Option Nat := match init with | .corruptRepo c => some c | _ => none
    match clone_result with
    | none => ⟨CACHE_ERROR_GIT, restoreBackup backup, false, false⟩
    | some c =>
      if git_subdir_exists c = false ∧ validate_clone c = false then
        ⟨CACHE_ERROR_GIT, restoreBackup backup, false, false⟩
      else ⟨CACHE_SUCCESS, .validRepo c, false, false⟩

/-! ## Checkout repair (src/checkout_repair.c) -/

/-- Probe results consumed by checkout_needs_repair for one checkout:
verify_checkout_repository outcome, the two modification times read by
cache_newer_than_checkout, the git status porcelain emptiness test, and the
rev-list count behind origin/HEAD. -/
structure CheckoutProbe where
  verify_ok : Bool
  checkout_mtime : Int
  cache_mtime : Int
  has_changes : Bool
  behind_count : Int
  deriving DecidableEq, Repr

/-- Shallow embedding of checkout_needs_repair (src/checkout_repair.c:78),
with the exact order of its early returns: validation failure, cache refs
newer than the checkout, checkout older than the last cache sync, then the
uncommitted-changes guard, and finally the behind-origin count. -/
def checkout_needs_repair (s : CheckoutProbe) (last_cache_sync : Int) : Bool :=
  if s.verify_ok = false then true
  else if s.checkout_mtime < s.cache_mtime then true
  else if 0 < last_cache_sync ∧ s.checkout_mtime < last_cache_sync then true
  else if s.has_changes then false
  else if 0 < s.behind_count then true
  else false

/-- Git commands with working tree effects run by the repair path. -/
inductive GitCmd where
  | fetchOrigin
  | resetHardOriginHead
  | cleanFd
  | fullRecreate
  deriving DecidableEq, Repr

/-- Shallow embedding of update_checkout_from_cache
(src/checkout_repair.c:141): fetch, then reset --hard origin/HEAD, then
clean -fd, stopping at the first failing step; returns the commands issued
and whether the function returned CHECKOUT_REPAIR_SUCCESS. -/
def update_checkout_from_cache (fetch_ok reset_ok : Bool) : List GitCmd × Bool :=
  if fetch_ok = false then ([.fetchOrigin], false)
  else if reset_ok = false then ([.fetchOrigin, .resetHardOriginHead], false)
  else ([.fetchOrigin, .resetHardOriginHead, .cleanFd], true)

/-- Shallow embedding of repair_outdated_checkout (src/checkout_repair.c:199):
try the in-place update first and fall back to a full checkout recreation
when it fails. -/
def repair_outdated_checkout (fetch_ok reset_ok : Bool) : List GitCmd :=
  let u := update_checkout_from_cache fetch_ok reset_ok
  if u.2 then u.1 else u.1 ++ [.fullRecreate]

/-- One checkout of the systemwide repair sweep
(repair_all_checkouts_for_repo, src/checkout_repair.c:302-332): repair runs
exactly when checkout_needs_repair returns a positive value. -/
def repair_sweep (s : CheckoutProbe) (last_cache_sync : Int)
    (fetch_ok reset_ok : Bool) : List GitCmd :=
  if checkout_needs_repair s last_cache_sync then
    repair_outdated_checkout fetch_ok reset_ok
  else []

/-! ## Submodule walker (src/submodule.c, process_submodules, lines 169-215) -/

/-- A parsed .gitmodules entry (struct submodule_info) after the parser has
dropped entries missing path or url. -/
structure SubmoduleEntry where
  name : String
  path : String
  url : String
  branch : Option String
  deriving DecidableEq, Repr

/-- Shallow embedding of process_submodules (src/submodule.c:169): the
walker parses the .gitmodules of the given checkout and caches and
initializes each entry found there.  The recursive parameter is received
and explicitly discarded by the source (cast to void under a TODO comment
at src/submodule.c:174-175), and the gitmodules files of the submodule
checkouts themselves (the gitmodules map) are never consulted.  Returns the
urls that get cached and initialized. -/
def process_submodules (gitmodules : String → List SubmoduleEntry)
    (checkout_path : String) (recursive : Bool) : List String :=
  let _ := recursive
  (gitmodules checkout_path).map (fun s => s.url)

/-! ## Claim theorems -/

/-- C10: cache_metadata_get_by_url never returns METADATA_SUCCESS for any
configuration, URL and on-disk state: repo_info_parse_url fills only the
URL, type, owner and name of the zeroed struct and never the cache path, so
cache_metadata_load always runs on a null path and the function always
returns METADATA_ERROR_INVALID. -/
theorem C10_get_by_url_always_invalid (disk : String → Int) (url : String) :
    cache_metadata_get_by_url disk url = METADATA_ERROR_INVALID := by
  unfold cache_metadata_get_by_url repo_info_parse_url
  cases hp : parseRepoUrl url with
  | none => simp [CACHE_ERROR_ARGS, CACHE_SUCCESS, METADATA_ERROR_INVALID]
  | some pr =>
    obtain ⟨o, n⟩ := pr
    simp [cache_metadata_load, repoInfoZero, CACHE_SUCCESS, METADATA_ERROR_INVALID]

/-- C6 counterexample: for the fresh clone of octocat/Hello-World the mirror
directory built by repo_info_setup_paths is not under a host segment named
github; the source writes the literal segment github.com. -/
theorem C6_claim_counterexample :
    (repo_info_setup_paths ("/cache") ("/checkouts") ("octocat") ("Hello-World")).1 ≠
      "/cache/github/octocat/Hello-World" := by decide

/-- C6 (amended): the path resolver is a pure function of the roots and the
identity mapping the mirror to cache_root/github.com/owner/name (host
segment github.com, not github); for octocat/Hello-World the mirror is
cache_root/github.com/octocat/Hello-World. -/
theorem C6_paths_amended (cache_root checkout_root owner name : String) :
    repo_info_setup_paths cache_root checkout_root owner name =
      (cache_root ++ "/github.com/" ++ owner ++ "/" ++ name,
       checkout_root ++ "/" ++ owner ++ "/" ++ name,
       checkout_root ++ "/mithro/" ++ owner ++ "-" ++ name) ∧
    (repo_info_setup_paths ("/cache") ("/checkouts") ("octocat") ("Hello-World")).1 =
      "/cache/github.com/octocat/Hello-World" :=
  ⟨rfl, by decide⟩

/-- C5: an ssh URL carrying a port component is misparsed by
github_parse_repo_url: the github.com: branch strips the host up to the
colon, so the port number becomes the owner and the real owner stays glued
to the name, diverging from the https form of the same repository (the
in-code comment at src/github_api.c:528-541 lists the port shape as a
handled format). -/
theorem C5_ssh_port_divergence :
    parseRepoUrl ("ssh://git@github.com:22/octocat/Hello-World.git") =
      some ("22", "octocat/Hello-World") ∧
    parseRepoUrl ("https://github.com/octocat/Hello-World") =
      some ("octocat", "Hello-World") ∧
    parseRepoUrl ("ssh://git@github.com:22/octocat/Hello-World.git") ≠
      parseRepoUrl ("https://github.com/octocat/Hello-World") := by
  refine ⟨by decide, by decide, by decide⟩

/-- C3 counterexample: a dead holder with a fresh lock file is not
reclaimed: the acquire_lock collision branch tests liveness only inside the
is_lock_stale branch, so the claimed disjunction (dead OR older than 300 s)
is not what the code implements. -/
theorem C3_claim_counterexample :
    ¬ (∀ (age : Nat) (pid : Int) (alive : Int → Bool),
        (alive pid = false ∨ 300 < age) →
        acquire_collision age pid alive = LockAction.reclaim) := by
  intro h
  have h1 := h 0 1 (fun _ => false) (Or.inl rfl)
  exact absurd h1 (by decide)

/-- C3 (amended): on a lock collision the lock file is deleted and
acquisition retried exactly when the lock is older than 300 seconds AND the
recorded holder pid is invalid or its process is dead; a dead holder with a
fresh lock, and a stale lock with a live holder, both make the caller wait
instead. -/
theorem C3_reclaim_iff (age : Nat) (pid : Int) (alive : Int → Bool) :
    acquire_collision age pid alive = LockAction.reclaim ↔
      (300 < age ∧ (pid ≤ 0 ∨ alive pid = false)) := by
  simp only [acquire_collision, is_lock_stale, LOCK_TIMEOUT]
  split_ifs with h1 h2 <;> simp_all

/-- C3 witness: a stale lock held by a dead-looking pid is reclaimed. -/
theorem C3_reclaim_iff_witness :
    acquire_collision 301 (-1) (fun _ => true) = LockAction.reclaim :=
  (C3_reclaim_iff 301 (-1) (fun _ => true)).mpr ⟨by decide, Or.inl (by decide)⟩

/-- C4: the network retry wrapper returns success at exit code 0, surfaces
exit codes 1 and 128 immediately without any sleep, and for any other exit
codes sleeps between attempts with delays starting at 1 second, doubling
per attempt and capped at 16, failing with -1 after max_retries attempts
(3 at the clone call site). -/
theorem C4_retry_contract (exitCode : Nat → Nat) (n : Nat) :
    (0 < n → exitCode 0 = 0 → retry_network_operation exitCode n = (0, [])) ∧
    (0 < n → (exitCode 0 = 1 ∨ exitCode 0 = 128) →
      retry_network_operation exitCode n = (((exitCode 0 : Nat) : Int), [])) ∧
    ((∀ i, i < n → exitCode i ≠ 0 ∧ exitCode i ≠ 1 ∧ exitCode i ≠ 128) →
      retry_network_operation exitCode n = (-1, delaySeq 1 (n - 1))) ∧
    (1 < n → (delaySeq 1 (n - 1)).head? = some 1) ∧
    (∀ d m i, i + 1 < m →
      (delaySeq d m).get? (i + 1) =
        ((delaySeq d m).get? i).map (fun x => min (2 * x) 16)) := by
  refine ⟨?_, ?_, ?_, ?_, ?_⟩
  · intro hn h0
    match n, hn with
    | m + 1, _ => simp [retry_network_operation, retryLoop, h0]
  · intro hn h0
    match n, hn with
    | m + 1, _ =>
      rcases h0 with h0 | h0 <;> simp [retry_network_operation, retryLoop, h0]
  · intro hbad
    unfold retry_network_operation
    have h := retryLoop_allbad exitCode n 0 1 (fun i _ h2 => hbad i (by omega))
    simpa using h
  · intro hn
    match n, hn with
    | m + 2, _ => simp [delaySeq]
  · intro d m i h
    exact delaySeq_get?_succ m d i h

/-- C4 witness: with three attempts a persistent retryable failure sleeps
1 s then 2 s and returns -1; code 0 succeeds at once; code 128 is surfaced
at once. -/
theorem C4_retry_witness :
    retry_network_operation (fun _ => 7) 3 = (-1, [1, 2]) ∧
    retry_network_operation (fun _ => 0) 3 = (0, []) ∧
    retry_network_operation (fun _ => 128) 3 = (128, []) := by
  refine ⟨?_, ?_, ?_⟩
  · have h := ((C4_retry_contract (fun _ => 7) 3).2.2.1)
      (fun i _ => by refine ⟨?_, ?_, ?_⟩ <;> decide)
    exact h.trans (by decide)
  · exact ((C4_retry_contract (fun _ => 0) 3).1) (by decide) rfl
  · have h := ((C4_retry_contract (fun _ => 128) 3).2.1) (by decide) (Or.inr rfl)
    exact h.trans (by decide)

/-- State of the canonical path after a rolled-back lifecycle failure: a
backed-up corrupt repository is restored, an absent path stays absent, but
a non-git directory was removed in the prepare phase without a backup and
stays gone. -/
def rollbackState : DirState → DirState
  | .nonGitDir _ => .absent
  | s => s

/-- C1 counterexample: when the canonical path held a non-git directory,
the prepare phase removes it without taking a backup, so after a failed
clone the prior contents are not preserved: the claimed atomicity-on-error
conjunction fails at this input. -/
theorem C1_claim_counterexample :
    ¬ (∀ (init : DirState) (clone_result : Option Nat) (v : Nat → Bool),
        (∀ c, init ≠ DirState.validRepo c) →
        clone_result = none →
        create_cache_repository init clone_result v =
          ⟨CACHE_ERROR_GIT, init, false, false⟩) := by
  intro h
  have h7 := h (.nonGitDir 7) none (fun _ => true)
    (fun c hc => DirState.noConfusion hc) rfl
  exact absurd h7 (by decide)

/-- C1 (amended): for both lifecycle operations, whenever materialization
is reached (the destination was not a valid repository) and the clone
ultimately fails or the temporary clone fails validation, the temporary
directory is removed, any backup taken in the prepare phase is restored,
and the caller receives CACHE_ERROR_GIT; the prior contents of the
canonical path are preserved except when they were a non-git directory,
which the prepare phase removed without a backup. -/
theorem C1_lifecycle_rollback (init : DirState) (clone_result : Option Nat)
    (gsub v : Nat → Bool) (hmat : ∀ c, init ≠ DirState.validRepo c) :
    ((clone_result = none ∨ ∃ c, clone_result = some c ∧ v c = false) →
      create_cache_repository init clone_result v =
        ⟨CACHE_ERROR_GIT, rollbackState init, false, false⟩) ∧
    ((clone_result = none ∨
        ∃ c, clone_result = some c ∧ gsub c = false ∧ v c = false) →
      create_reference_checkout true init clone_result gsub v =
        ⟨CACHE_ERROR_GIT, rollbackState init, false, false⟩) := by
  constructor
  · intro hfail
    cases init with
    | validRepo c => exact absurd rfl (hmat c)
    | absent =>
      rcases hfail with rfl | ⟨c, rfl, hv⟩
      · simp [create_cache_repository, restoreBackup, rollbackState]
      · simp [create_cache_repository, restoreBackup, rollbackState, hv]
    | corruptRepo c0 =>
      rcases hfail with rfl | ⟨c, rfl, hv⟩
      · simp [create_cache_repository, restoreBackup, rollbackState]
      · simp [create_cache_repository, restoreBackup, rollbackState, hv]
    | nonGitDir c0 =>
      rcases hfail with rfl | ⟨c, rfl, hv⟩
      · simp [create_cache_repository, restoreBackup, rollbackState]
      · simp [create_cache_repository, restoreBackup, rollbackState, hv]
  · intro hfail
    cases init with
    | validRepo c => exact absurd rfl (hmat c)
    | absent =>
      rcases hfail with rfl | ⟨c, rfl, hg, hv⟩
      · simp [create_reference_checkout, restoreBackup, rollbackState]
      · simp [create_reference_checkout, restoreBackup, rollbackState, hg, hv]
    | corruptRepo c0 =>
      rcases hfail with rfl | ⟨c, rfl, hg, hv⟩
      · simp [create_reference_checkout, restoreBackup, rollbackState]
      · simp [create_reference_checkout, restoreBackup, rollbackState, hg, hv]
    | nonGitDir c0 =>
      rcases hfail with rfl | ⟨c, rfl, hg, hv⟩
      · simp [create_reference_checkout, restoreBackup, rollbackState]
      · simp [create_reference_checkout, restoreBackup, rollbackState, hg, hv]

/-- C1 witness: a backed-up corrupt mirror and a backed-up corrupt checkout
are both restored after a failed clone, and the caller receives the Git
error. -/
theorem C1_lifecycle_rollback_witness :
    create_cache_repository (.corruptRepo 3) none (fun _ => true) =
      ⟨CACHE_ERROR_GIT, .corruptRepo 3, false, false⟩ ∧
    create_reference_checkout true (.corruptRepo 3) none
        (fun _ => true) (fun _ => true) =
      ⟨CACHE_ERROR_GIT, .corruptRepo 3, false, false⟩ := by
  have h := C1_lifecycle_rollback (.corruptRepo 3) none
    (fun _ => true) (fun _ => true) (fun c hc => DirState.noConfusion hc)
  exact ⟨(h.1 (Or.inl rfl)).trans (by decide), (h.2 (Or.inl rfl)).trans (by decide)⟩

/-- C2 counterexample: a dirty checkout that fails validation is repaired
anyway, and the repair performs a hard reset: the uncommitted-changes guard
of checkout_needs_repair sits after the validation, mtime and last-sync
early returns, so it does not protect those cases. -/
theorem C2_claim_counterexample :
    ¬ (∀ (s : CheckoutProbe) (sync : Int) (f r : Bool),
        s.has_changes = true →
        GitCmd.resetHardOriginHead ∉ repair_sweep s sync f r) := by
  intro h
  exact absurd (h ⟨false, 0, 0, true, 0⟩ 0 true true rfl) (by decide)

/-- C2 (amended): on a dirty checkout, the uncommitted-changes guard
suppresses repair only when validation passed, the cache is not newer and
the checkout is not older than the last sync; when any of those three
conditions triggers, repair runs despite the dirty tree and performs a
fetch plus hard reset plus untracked clean. -/
theorem C2_dirty_guard (s : CheckoutProbe) (sync : Int)
    (hch : s.has_changes = true) :
    (checkout_needs_repair s sync = true ↔
      (s.verify_ok = false ∨ s.checkout_mtime < s.cache_mtime ∨
        (0 < sync ∧ s.checkout_mtime < sync))) ∧
    (checkout_needs_repair s sync = false →
      ∀ f r, repair_sweep s sync f r = []) ∧
    (checkout_needs_repair s sync = true →
      GitCmd.resetHardOriginHead ∈ repair_sweep s sync true true ∧
      GitCmd.cleanFd ∈ repair_sweep s sync true true) := by
  refine ⟨?_, ?_, ?_⟩
  · simp only [checkout_needs_repair, hch]
    split_ifs with h1 h2 h3 <;> simp_all
  · intro hno f r
    simp [repair_sweep, hno]
  · intro hyes
    simp [repair_sweep, hyes, repair_outdated_checkout, update_checkout_from_cache]

/-- C2 witness: a dirty checkout failing validation is swept with a hard
reset and an untracked clean. -/
theorem C2_dirty_guard_witness :
    GitCmd.resetHardOriginHead ∈ repair_sweep ⟨false, 0, 0, true, 0⟩ 0 true true ∧
    GitCmd.cleanFd ∈ repair_sweep ⟨false, 0, 0, true, 0⟩ 0 true true :=
  (C2_dirty_guard ⟨false, 0, 0, true, 0⟩ 0 rfl).2.2 (by decide)

/-- C7 counterexample: a checkout with all sentinels and git probes healthy
but no alternates file at all is still classified valid by
validate_git_repository, so the GitRepoValid classification does not imply
the layer-5 alternates property. -/
theorem C7_claim_counterexample :
    ¬ (∀ (p : RepoProbe) (mirror : String),
        validate_git_repository p false = true →
        p.alternates = some [mirror ++ "/objects"]) := by
  intro h
  have h1 := h ⟨true, true, true, true, 0, 0, 0, none⟩ ("/m") (by decide)
  exact absurd h1 (by decide)

/-- C7 (amended): the GitRepoValid classification of a checkout is exactly
the structural sentinels plus the command-level probes (rev-parse of the
git dir at exit 0 and rev-parse HEAD at exit at most 128); it never reads
the alternates file, so layer 5 is not guaranteed by the classification. -/
theorem C7_validate_characterization (p : RepoProbe) (a : Option (List String))
    (b : Bool) :
    validate_git_repository { p with alternates := a } b =
      validate_git_repository p b ∧
    (validate_git_repository p false = true ↔
      (p.git_dir_exists = true ∧ p.objects_exists = true ∧ p.refs_exists = true ∧
       p.head_exists = true ∧ p.rev_parse_git_dir_exit = 0 ∧
       p.rev_parse_head_exit ≤ 128)) := by
  constructor
  · rfl
  · simp only [validate_git_repository]
    split_ifs with h1 h2 h3 h4 <;> simp_all

/-- C7 witness: a fully healthy probe with no alternates validates. -/
theorem C7_validate_witness :
    validate_git_repository ⟨true, true, true, true, 0, 0, 0, none⟩ false = true :=
  (C7_validate_characterization ⟨true, true, true, true, 0, 0, 0, none⟩ none false).2.mpr
    ⟨rfl, rfl, rfl, rfl, rfl, by decide⟩

/-- C8 counterexample: a 600 MB monorepo under a 50 MB threshold with the
completeness preference matches the size-threshold branch before the
monorepo row and gets full with confidence 70, not blobless with 90: the
monorepo row is not the second row of the decision order. -/
theorem C8_claim_counterexample :
    ¬ (∀ (a : RepoAnalysis) (c : StrategyConfig),
        a.is_monorepo = true →
        ¬(a.estimated_size / (1024 * 1024) < 10 ∧ a.commit_count < 100) →
        ((get_optimal_strategy a c).strategy = CloneStrategy.blobless ∧
         (get_optimal_strategy a c).confidence = 90 ∧
         (get_optimal_strategy a c).fallback = CloneStrategy.treeless)) := by
  intro h
  have h1 := h ⟨600 * 1024 * 1024, 200, false, true, 10⟩ ⟨false, 50, 1000⟩
    rfl (by decide)
  exact absurd h1 (by decide)

/-- C8 (amended): the monorepo row yields blobless with confidence 90 and
fallback treeless only when, additionally, neither the size/commit
threshold branch nor the high-activity speed branch matched first; the
monorepo test is the fourth branch of the source, not the second row. -/
theorem C8_monorepo_position (a : RepoAnalysis) (c : StrategyConfig)
    (hmono : a.is_monorepo = true)
    (h1 : ¬(a.estimated_size / (1024 * 1024) < 10 ∧ a.commit_count < 100))
    (h2 : ¬(c.size_threshold_mb < a.estimated_size / (1024 * 1024) ∨
            c.depth_threshold < a.commit_count))
    (h3 : ¬(50 < a.activity_level ∧ c.prefer_speed = true)) :
    get_optimal_strategy a c =
      ⟨.blobless, 90, "Monorepo detected - blobless clone recommended", .treeless⟩ := by
  simp only [get_optimal_strategy]
  rw [if_neg h1, if_neg h2, if_neg h3, if_pos hmono]

/-- C8 witness: a small-sized but commit-heavy monorepo below both
thresholds and with low activity is recommended blobless at 90. -/
theorem C8_monorepo_position_witness :
    get_optimal_strategy ⟨0, 200, false, true, 10⟩ ⟨false, 50, 1000⟩ =
      ⟨.blobless, 90, "Monorepo detected - blobless clone recommended", .treeless⟩ :=
  C8_monorepo_position ⟨0, 200, false, true, 10⟩ ⟨false, 50, 1000⟩
    rfl (by decide) (by decide) (by decide)

/-- Concrete two-level submodule layout: the top checkout declares one
submodule whose own checkout declares a nested submodule. -/
def nestedGitmodules : String → List SubmoduleEntry := fun p =>
  if p = "/co/top" then [⟨"sub", "sub", "https://github.com/o/sub", none⟩]
  else if p = "/co/top/sub" then [⟨"inner", "inner", "https://github.com/o/inner", none⟩]
  else []

/-- C9: process_submodules caches exactly the top-level submodule urls and
ignores the recursive flag (the source discards it under a TODO comment),
so a nested submodule declared by a submodule checkout is never cached even
when recursion was requested. -/
theorem C9_recursion_ignored :
    process_submodules nestedGitmodules ("/co/top") true =
      process_submodules nestedGitmodules ("/co/top") false ∧
    process_submodules nestedGitmodules ("/co/top") true =
      ["https://github.com/o/sub"] ∧
    ("https://github.com/o/inner") ∉
      process_submodules nestedGitmodules ("/co/top") true := by
  refine ⟨rfl, by decide, by decide⟩

end GitCache
